import Mathlib

/-!
Shallow embedding of the go_students_api core: the Student record model and
validation, the pagination resolver, the SQLite-backed storage gateway with
its sentinel-error classification, and the HTTP request handlers.

Source files embedded:
- internal/types/types.go (Student, PaginationParams, PaginatedResponse, limits)
- internal/http/helpers/helper.go (ParsePaginationParams)
- internal/storage/storage.go (sentinel errors, Storage interface)
- internal/storage/sqlite/sqlite.go (CreateStudent, GetStudent, GetStudentsList)
- internal/http/response/response.go (WriteError, WriteValidationErrors)
- internal/http/handlers/students/students.go (NewStudentHandler, GetStudentHandler)
-/

namespace StudentsApi

/-- internal/types/types.go: the Student entity. Go int64 and int are modelled
as unbounded Int; no arithmetic in the embedded code can overflow them. -/
structure Student where
  id : Int
  name : String
  email : String
  age : Int
deriving Repr, DecidableEq

/-- internal/types/types.go: pagination query parameters. -/
structure PaginationParams where
  page : Int
  limit : Int
deriving Repr, DecidableEq

/-- internal/types/types.go: default pagination values. -/
def DefaultPage : Int := 1

/-- internal/types/types.go: default limit. -/
def DefaultLimit : Int := 20

/-- internal/types/types.go: maximum limit. -/
def MaxLimit : Int := 100

/-- internal/types/types.go: minimum limit. -/
def MinLimit : Int := 1

/-- Go int64 maximum, for strconv range errors. -/
def goIntMax : Int := 2 ^ 63 - 1

/-- Go int64 minimum, for strconv range errors. -/
def goIntMin : Int := -(2 ^ 63)

/-- Accumulate the value of a decimal digit string; `none` on a non-digit. -/
def parseDigitsAux : List Char → Int → Option Int
  | [], acc => some acc
  | c :: cs, acc =>
    if c.isDigit then parseDigitsAux cs (acc * 10 + ((c.toNat : Int) - 48))
    else none

/-- Model of Go strconv.Atoi / strconv.ParseInt(s, 10, 64): an optional sign
followed by one or more decimal digits; `none` models a non-nil error
(empty input, stray characters, or a value outside the int64 range --- Go
also returns a clamped value with ErrRange, but every caller in this
repository discards the value whenever err is non-nil). -/
def goAtoi (s : String) : Option Int :=
  match s.data with
  | [] => none
  | c :: cs =>
    let signAndDigits : Bool × List Char :=
      if c = '-' then (true, cs)
      else if c = '+' then (false, cs)
      else (false, c :: cs)
    match signAndDigits.2 with
    | [] => none
    | ds =>
      match parseDigitsAux ds 0 with
      | none => none
      | some v =>
        let v : Int := if signAndDigits.1 then -v else v
        if goIntMin ≤ v ∧ v ≤ goIntMax then some v else none

/-- internal/http/helpers/helper.go ParsePaginationParams: the two query
values are passed as strings; net/url Query().Get returns "" for an absent
parameter, so absence is modelled by the empty string exactly as the Go code
sees it. -/
def ParsePaginationParams (pageStr limitStr : String) : PaginationParams :=
  let page : Int :=
    if pageStr ≠ "" then
      match goAtoi pageStr with
      | some p => if p > 0 then p else DefaultPage
      | none => DefaultPage
    else DefaultPage
  let limit : Int :=
    if limitStr ≠ "" then
      match goAtoi limitStr with
      | some l =>
        if l > 0 then
          let l1 := if l > MaxLimit then MaxLimit else l
          let l2 := if l1 < MinLimit then MinLimit else l1
          l2
        else DefaultLimit
      | none => DefaultLimit
    else DefaultLimit
  ⟨page, limit⟩

/-- Model of a Go error value as this repository uses them:
the four sentinel errors declared in internal/storage/storage.go,
raw errors coming up from database/sql or the sqlite driver, and
fmt.Errorf("%w: %v", sentinel, err) wrapping. -/
inductive GoError where
  | errNotFound
  | errDuplicate
  | errInvalidData
  | errDatabase
  | raw (msg : String)
  | wrap (inner : GoError) (detail : String)
deriving Repr, DecidableEq

/-- err.Error() for the modelled errors; the sentinel texts are the
errors.New strings of internal/storage/storage.go, and wrapping uses the
"%w: %v" format of sqlite.go. -/
def GoError.text : GoError → String
  | .errNotFound => "student not found"
  | .errDuplicate => "student already exists"
  | .errInvalidData => "invalid student data"
  | .errDatabase => "database error"
  | .raw m => m
  | .wrap inner d => inner.text ++ ": " ++ d

/-- Model of errors.Is(err, target): identity at each level of the
fmt.Errorf %w unwrap chain. Distinct error values are distinct constructors,
so propositional equality models Go error identity. -/
def errorsIs : GoError → GoError → Bool
  | .wrap inner d, target => (GoError.wrap inner d == target) || errorsIs inner target
  | e, target => e == target

/-- Storage state: the students table in insertion order plus the
AUTOINCREMENT counter of the id column (sqlite.go DDL: id INTEGER PRIMARY
KEY AUTOINCREMENT, so ids are never reused and rows carry increasing ids). -/
structure Db where
  rows : List Student
  nextId : Int
deriving Repr, DecidableEq

/-- Well-formedness maintained by the schema: every stored id is below the
AUTOINCREMENT counter, and insertion order is id-ascending order. -/
def DbWf (db : Db) : Prop :=
  (∀ s ∈ db.rows, s.id < db.nextId) ∧
  db.rows.Pairwise (fun a b => a.id < b.id)

instance (db : Db) : Decidable (DbWf db) := by
  unfold DbWf; infer_instance

/-- Fault injection for the database/sql driver calls made by
Sqlite.CreateStudent: a `some msg` means the corresponding call
(Prepare, Exec, LastInsertId) fails with that driver error. -/
structure DriverFaults where
  prepareErr : Option String
  execErr : Option String
  lastIdErr : Option String
deriving Repr, DecidableEq

/-- The fault-free driver. -/
def noFaults : DriverFaults := ⟨none, none, none⟩

/-- sqlite.go CreateStudent: INSERT INTO students (name, email, age) and
return LastInsertId. Each failing driver call returns the raw error
unwrapped (`return 0, err`). When Exec succeeded but LastInsertId fails,
the row is already inserted and 0 is returned with the raw error. -/
def CreateStudent (f : DriverFaults) (db : Db) (name email : String) (age : Int) :
    Db × Except GoError Int :=
  match f.prepareErr with
  | some m => (db, .error (.raw m))
  | none =>
    match f.execErr with
    | some m => (db, .error (.raw m))
    | none =>
      let db2 : Db := ⟨db.rows ++ [⟨db.nextId, name, email, age⟩], db.nextId + 1⟩
      match f.lastIdErr with
      | some m => (db2, .error (.raw m))
      | none => (db2, .ok db.nextId)

/-- sqlite.go GetStudent: SELECT id, name, email, age FROM students WHERE
id = ?. A failing Prepare or a failing query is wrapped as
fmt.Errorf("%w: %v", storage.ErrDatabase, err); sql.ErrNoRows becomes the
storage.ErrNotFound sentinel. -/
def GetStudent (prepareFault queryFault : Option String) (db : Db) (id : Int) :
    Except GoError Student :=
  match prepareFault with
  | some m => .error (.wrap .errDatabase m)
  | none =>
    match queryFault with
    | some m => .error (.wrap .errDatabase m)
    | none =>
      match db.rows.find? (fun s => s.id == id) with
      | some s => .ok s
      | none => .error .errNotFound

/-- Modelled from the spec: the paginated `GetStudentsList(offset, limit)`
implementation of the Storage interface (internal/storage/storage.go) is not
among the source files --- only the interface declares it, and the sqlite.go
version included takes no parameters. Per spec section 4.3 the operation
returns zero or more rows ordered by identifier ascending (insertion order)
restricted to the offset/limit window, and an empty window is a normal,
error-free outcome. -/
def GetStudentsList (db : Db) (offset limit : Int) : Except GoError (List Student) :=
  .ok ((db.rows.drop offset.toNat).take limit.toNat)

/-- Modelled from the spec: the `GetStudentsCount()` implementation of the
Storage interface is not among the source files. Per spec section 4.3 it
returns the total row count. -/
def GetStudentsCount (db : Db) : Except GoError Int :=
  .ok (db.rows.length : Int)

/-- One entry of go-playground/validator's ValidationErrors: the struct
field name as reported by err.Field() (no tag-name function is registered,
so this is the Go field name, e.g. "Email"), the failed tag from
err.ActualTag(), and the tag parameter from err.Param(). -/
structure FieldError where
  field : String
  tag : String
  param : String
deriving Repr, DecidableEq

/-- Split a character list at every occurrence of `sep`. -/
def splitAtChar (sep : Char) : List Char → List (List Char)
  | [] => [[]]
  | c :: cs =>
    let rest := splitAtChar sep cs
    if c = sep then [] :: rest
    else
      match rest with
      | [] => [[c]]
      | r :: rs => (c :: r) :: rs

/-- Abstraction of validator v10's `email` syntax check: one "@" separating
a non-empty local part from a non-empty domain. No claim depends on the
exact accepted language; only the claims' inputs (empty email, well-formed
addresses) need to be decided correctly, and they are. -/
def emailValid (s : String) : Bool :=
  match splitAtChar '@' s.data with
  | [l, d] => !l.isEmpty && !d.isEmpty
  | _ => false

/-- validator.New().Struct on types.Student with tags
Name `required`, Email `required,email`, Age `required,min=18,max=100`:
fields are visited in declaration order, tags per field left to right and
only the first failing tag per field is recorded; `required` fails on the
zero value ("" for string, 0 for int); the untagged ID field is never
inspected. Returns the collected ValidationErrors (empty means a nil
error in Go). -/
def validateStudent (s : Student) : List FieldError :=
  let nameErrs : List FieldError :=
    if s.name = "" then [⟨"Name", "required", ""⟩] else []
  let emailErrs : List FieldError :=
    if s.email = "" then [⟨"Email", "required", ""⟩]
    else if !emailValid s.email then [⟨"Email", "email", ""⟩]
    else []
  let ageErrs : List FieldError :=
    if s.age = 0 then [⟨"Age", "required", ""⟩]
    else if s.age < 18 then [⟨"Age", "min", "18"⟩]
    else if s.age > 100 then [⟨"Age", "max", "100"⟩]
    else []
  nameErrs ++ emailErrs ++ ageErrs

/-- internal/http/response/response.go: the error envelope
{"error", "status", "message"}. -/
structure ErrResponse where
  error : String
  status : String
  message : String
deriving Repr, DecidableEq

/-- response.go StatusError constant. -/
def StatusError : String := "Error"

/-- Modelled from the spec: the PaginatedResponse of internal/types/types.go
specialized to Student data (the Go field is interface{}; every use in this
core carries the student page). -/
structure PaginatedResponse where
  data : List Student
  page : Int
  limit : Int
  totalItems : Int
  totalPages : Int
  hasNext : Bool
  hasPrev : Bool
deriving Repr, DecidableEq

/-- The JSON body written by a handler. -/
inductive RespBody where
  | err (e : ErrResponse)
  | studentJson (s : Student)
  | idJson (id : Int)
  | paginated (p : PaginatedResponse)
deriving Repr, DecidableEq

/-- An HTTP response: status code plus JSON body. -/
structure HttpResponse where
  status : Int
  body : RespBody
deriving Repr, DecidableEq

/-- response.go message text for one validation error, switching on
err.ActualTag() exactly as WriteValidationErrors does. -/
def fieldErrorMsg (e : FieldError) : String :=
  if e.tag = "required" then e.field ++ " is required"
  else if e.tag = "uuid" then e.field ++ " is not a valid UUID"
  else if e.tag = "min" then e.field ++ " must be greater than " ++ e.param
  else if e.tag = "max" then e.field ++ " must be less than " ++ e.param
  else if e.tag = "email" then e.field ++ " is not a valid email"
  else e.field ++ " is not valid for tag " ++ e.tag

/-- Go strings.Join. -/
def stringsJoin (elems : List String) (sep : String) : String :=
  match elems with
  | [] => ""
  | e :: rest => rest.foldl (fun acc x => acc ++ sep ++ x) e

/-- response.go WriteValidationErrors: one envelope with the per-field
messages joined by "; ". -/
def writeValidationErrors (errs : List FieldError) : ErrResponse :=
  ⟨"validation errors", StatusError, stringsJoin (errs.map fieldErrorMsg) "; "⟩

/-- A decoded POST /students request body as the handler sees it after
json.Decode: io.EOF for an empty body, another decode error, or a decoded
Student value (fields absent from the JSON keep their zero values). -/
inductive Body where
  | empty
  | malformed (msg : String)
  | decoded (s : Student)
deriving Repr, DecidableEq

/-- students.go NewStudentHandler: decode, validate, then
CreateStudent(name, email, age). Returns the updated storage, the response,
and the number of Storage Gateway calls performed. -/
def NewStudentHandler (f : DriverFaults) (db : Db) (body : Body) :
    Db × HttpResponse × Nat :=
  match body with
  | .empty =>
    (db, ⟨400, .err ⟨"invalid request body", StatusError, "request body is empty"⟩⟩, 0)
  | .malformed m =>
    (db, ⟨400, .err ⟨"invalid request body", StatusError, m⟩⟩, 0)
  | .decoded student =>
    let errs := validateStudent student
    if errs.isEmpty then
      match CreateStudent f db student.name student.email student.age with
      | (db2, .ok id) => (db2, ⟨201, .idJson id⟩, 1)
      | (db2, .error e) =>
        (db2, ⟨500, .err ⟨"error creating student", StatusError, e.text⟩⟩, 1)
    else
      (db, ⟨400, .err (writeValidationErrors errs)⟩, 0)

/-- students.go GetStudentHandler: parse the path id with
strconv.ParseInt(id, 10, 64), look the student up, and map
storage.ErrNotFound (via errors.Is) to 404, any other error to 500.
strconv's own error text is abstracted as "parse error". -/
def GetStudentHandler (prepareFault queryFault : Option String) (db : Db)
    (idStr : String) : HttpResponse :=
  match goAtoi idStr with
  | none => ⟨400, .err ⟨"invalid ID", StatusError, "parse error"⟩⟩
  | some idInt =>
    match GetStudent prepareFault queryFault db idInt with
    | .ok s => ⟨200, .studentJson s⟩
    | .error e =>
      if errorsIs e .errNotFound then
        ⟨404, .err ⟨"student not found", StatusError, e.text⟩⟩
      else
        ⟨500, .err ⟨"internal server error", StatusError, e.text⟩⟩

/-- Modelled from the spec: the ListStudentsPaginated handler (spec section
4.4) is not among the source files. It resolves the pagination parameters,
computes offset = (page-1)*limit, fetches the page and the count, and on
success answers 200 with the PaginatedResult whose metadata is
total_pages = ceil(total_items/limit) (integer formula (t+l-1)/l),
has_next = page < total_pages, has_prev = page > 1. -/
def GetStudentsListHandler (db : Db) (pageStr limitStr : String) : HttpResponse :=
  let params := ParsePaginationParams pageStr limitStr
  let offset := (params.page - 1) * params.limit
  match GetStudentsList db offset params.limit with
  | .error e => ⟨500, .err ⟨"internal server error", StatusError, e.text⟩⟩
  | .ok students =>
    match GetStudentsCount db with
    | .error e => ⟨500, .err ⟨"internal server error", StatusError, e.text⟩⟩
    | .ok total =>
      let totalPages := (total + params.limit - 1) / params.limit
      ⟨200, .paginated ⟨students, params.page, params.limit, total, totalPages,
        decide (params.page < totalPages), decide (params.page > 1)⟩⟩

/-- The empty freshly-provisioned database (AUTOINCREMENT starts at 1). -/
def db0 : Db := ⟨[], 1⟩

/-- Go strings.Contains on the underlying character lists: does `sub` occur
as a contiguous run of `s`? Executable so concrete messages can be checked
by `decide`. -/
def hasPrefixChars : List Char → List Char → Bool
  | _, [] => true
  | [], _ :: _ => false
  | a :: as, b :: bs => a == b && hasPrefixChars as bs

/-- Helper for `stringContains`: scan every suffix. -/
def containsSub : List Char → List Char → Bool
  | [], sub => sub.isEmpty
  | a :: as, sub => hasPrefixChars (a :: as) sub || containsSub as sub

/-- Go strings.Contains(s, sub). -/
def stringContains (s sub : String) : Bool :=
  containsSub s.data sub.data

/- The resolved limit, written out by unfolding the definition once. -/
theorem parseLimit_eq (ps ls : String) :
    (ParsePaginationParams ps ls).limit =
      (if ls ≠ "" then
        match goAtoi ls with
        | some l =>
          if l > 0 then
            (if (if l > MaxLimit then MaxLimit else l) < MinLimit then MinLimit
             else (if l > MaxLimit then MaxLimit else l))
          else DefaultLimit
        | none => DefaultLimit
      else DefaultLimit) := rfl

/- The resolver always yields a limit inside [1, 100] or the in-range
default 20; in particular it never fails. -/
theorem parseLimit_bounds (ps ls : String) :
    1 ≤ (ParsePaginationParams ps ls).limit ∧
      (ParsePaginationParams ps ls).limit ≤ 100 := by
  rw [parseLimit_eq]
  by_cases h1 : ls = ""
  · simp [h1, DefaultLimit]
  · simp only [h1, ne_eq, not_false_iff, if_true]
    cases hA : goAtoi ls with
    | none => simp [DefaultLimit]
    | some l =>
      by_cases h2 : l > 0
      · simp only [h2, if_true, MaxLimit, MinLimit]
        split_ifs <;> omega
      · simp [h2, DefaultLimit]

/-- Parsing the empty string fails, as in Go. -/
theorem goAtoi_empty : goAtoi "" = none := rfl

/-- C3 counterexample: the caller supplies the limit query value "0", which
is below 1, yet the resolver returns the default 20, not the claimed lower
clamp 1 --- the positivity guard rejects the value before the MinLimit
branch can run. -/
theorem limit_below_one_not_clamped_cex :
    (ParsePaginationParams "" "0").limit = 20 ∧
      ¬ (ParsePaginationParams "" "0").limit = 1 := by decide

/-- C3 amended: for every request whose limit query value parses as an
integer below 1, the resolver returns the default limit 20 (the supplied
value fails the `l > 0` guard, so the MinLimit clamp to 1 never fires). -/
theorem limit_below_one_defaults (ps ls : String) (l : Int)
    (hA : goAtoi ls = some l) (hl : l < 1) :
    (ParsePaginationParams ps ls).limit = 20 := by
  have hne : ls ≠ "" := by
    intro h
    rw [h, goAtoi_empty] at hA
    exact Option.noConfusion hA
  rw [parseLimit_eq]
  simp only [hne, ne_eq, not_false_iff, if_true, hA]
  have h2 : ¬ l > 0 := by omega
  simp [h2, DefaultLimit]

/-- Witness for C3 amended: the supplied limit "0" parses to 0 < 1 and the
resolver returns 20. -/
theorem limit_below_one_defaults_witness :
    (ParsePaginationParams "" "0").limit = 20 :=
  limit_below_one_defaults "" "0" 0 (by decide) (by decide)

/-- C4: a supplied limit parsing to an integer above 100 resolves to exactly
100; an absent limit resolves to exactly 20; a non-integer limit resolves to
exactly 20; and the resolver is total, always returning a limit in [1, 100]
(so it never raises an error for any string inputs). -/
theorem limit_clamp_and_defaults :
    (∀ ps ls l, goAtoi ls = some l → l > 100 →
        (ParsePaginationParams ps ls).limit = 100)
    ∧ (∀ ps, (ParsePaginationParams ps "").limit = 20)
    ∧ (∀ ps ls, goAtoi ls = none → (ParsePaginationParams ps ls).limit = 20)
    ∧ (∀ ps ls, 1 ≤ (ParsePaginationParams ps ls).limit ∧
        (ParsePaginationParams ps ls).limit ≤ 100) := by
  refine ⟨?_, ?_, ?_, fun ps ls => parseLimit_bounds ps ls⟩
  · intro ps ls l hA hl
    have hne : ls ≠ "" := by
      intro h
      rw [h, goAtoi_empty] at hA
      exact Option.noConfusion hA
    rw [parseLimit_eq]
    simp only [hne, ne_eq, not_false_iff, if_true, hA]
    have h2 : l > 0 := by omega
    simp only [h2, if_true, MaxLimit, MinLimit]
    split_ifs <;> omega
  · intro ps
    rw [parseLimit_eq]
    simp [DefaultLimit]
  · intro ps ls hA
    rw [parseLimit_eq]
    by_cases h1 : ls = ""
    · simp [h1, DefaultLimit]
    · simp [h1, hA, DefaultLimit]

/-- Witness for C4: limit "1000" resolves to 100, absent limit to 20,
non-integer limit "abc" to 20, and the bounds hold at a sample input. -/
theorem limit_clamp_and_defaults_witness :
    (ParsePaginationParams "" "1000").limit = 100 ∧
      (ParsePaginationParams "" "").limit = 20 ∧
      (ParsePaginationParams "" "abc").limit = 20 ∧
      (1 ≤ (ParsePaginationParams "3" "7").limit ∧
        (ParsePaginationParams "3" "7").limit ≤ 100) :=
  ⟨limit_clamp_and_defaults.1 "" "1000" 1000 (by decide) (by decide),
   limit_clamp_and_defaults.2.1 "",
   limit_clamp_and_defaults.2.2.1 "" "abc" (by decide),
   limit_clamp_and_defaults.2.2.2 "3" "7"⟩

/- A WHERE id = ? lookup on a table extended with a fresh id finds exactly
the new row. -/
theorem find_fresh_append (rows : List Student) (nid : Int) (n e : String)
    (a : Int) (h : ∀ s ∈ rows, s.id ≠ nid) :
    List.find? (fun s => s.id == nid) (rows ++ [(⟨nid, n, e, a⟩ : Student)]) =
      some (⟨nid, n, e, a⟩ : Student) := by
  induction rows with
  | nil => simp [List.find?]
  | cons hd tl ih =>
    have hhd : (hd.id == nid) = false := by
      simp only [beq_eq_false_iff_ne, ne_eq]
      exact h hd (List.mem_cons_self hd tl)
    simp only [List.cons_append, List.find?, hhd]
    exact ih (fun s hs => h s (List.mem_cons_of_mem hd hs))

/-- C5 (round-trip): for every well-formed storage state, a successful
CreateStudent(name, email, age) returns the assigned id, and GetStudent on
that id over the updated, otherwise unchanged storage returns a Student
whose name, email, and age equal the created input and whose ID is the
assigned id. -/
theorem create_get_roundtrip (db : Db) (n e : String) (a : Int)
    (hwf : DbWf db) :
    ∃ db2 id, CreateStudent noFaults db n e a = (db2, .ok id) ∧
      GetStudent none none db2 id = .ok ⟨id, n, e, a⟩ := by
  refine ⟨⟨db.rows ++ [⟨db.nextId, n, e, a⟩], db.nextId + 1⟩, db.nextId, rfl, ?_⟩
  unfold GetStudent
  dsimp only
  rw [find_fresh_append db.rows db.nextId n e a
    (fun s hs => ne_of_lt (hwf.1 s hs))]

/-- Witness for C5: creating ("Alice", "alice@example.com", 22) in the empty
database assigns id 1 and GetStudent 1 returns exactly that record. -/
theorem create_get_roundtrip_witness :
    ∃ db2 id, CreateStudent noFaults db0 "Alice" "alice@example.com" 22 =
        (db2, .ok id) ∧
      GetStudent none none db2 id = .ok ⟨id, "Alice", "alice@example.com", 22⟩ :=
  create_get_roundtrip db0 "Alice" "alice@example.com" 22 (by decide)

/-- C6: for every identifier that was never created, the gateway GetStudent
returns the ErrNotFound sentinel, and the handler maps it to HTTP 404 with
error text "student not found" --- never to HTTP 500. -/
theorem get_never_created_404 (db : Db) (idStr : String) (idInt : Int)
    (hparse : goAtoi idStr = some idInt)
    (habsent : ∀ s ∈ db.rows, s.id ≠ idInt) :
    GetStudent none none db idInt = .error .errNotFound ∧
    GetStudentHandler none none db idStr =
      ⟨404, .err ⟨"student not found", StatusError, "student not found"⟩⟩ ∧
    (GetStudentHandler none none db idStr).status ≠ 500 := by
  have hfind : db.rows.find? (fun s => s.id == idInt) = none := by
    rw [List.find?_eq_none]
    intro s hs
    simpa using habsent s hs
  have hget : GetStudent none none db idInt = .error .errNotFound := by
    unfold GetStudent
    dsimp only
    rw [hfind]
  have hh : GetStudentHandler none none db idStr =
      ⟨404, .err ⟨"student not found", StatusError, "student not found"⟩⟩ := by
    unfold GetStudentHandler
    rw [hparse]
    dsimp only
    rw [hget]
    rfl
  refine ⟨hget, hh, ?_⟩
  rw [hh]
  decide

/-- Witness for C6: id 5 in the empty database gives the 404 envelope. -/
theorem get_never_created_404_witness :
    GetStudent none none db0 5 = .error .errNotFound ∧
    GetStudentHandler none none db0 "5" =
      ⟨404, .err ⟨"student not found", StatusError, "student not found"⟩⟩ ∧
    (GetStudentHandler none none db0 "5").status ≠ 500 :=
  get_never_created_404 db0 "5" 5 (by decide) (by decide)

/-- C7 counterexample: a prepare-stage driver failure "disk I/O error"
during CreateStudent is returned raw; errors.Is against the ErrDatabase
sentinel is false, so the error is not identifiable as the DatabaseError
domain kind. -/
theorem create_error_unclassified_cex :
    (CreateStudent ⟨some "disk I/O error", none, none⟩ db0
        "Alice" "alice@example.com" 22).2 = .error (.raw "disk I/O error") ∧
    errorsIs (.raw "disk I/O error") .errDatabase = false :=
  ⟨rfl, rfl⟩

/-- C7 amended: every underlying storage failure during CreateStudent
(prepare, execute, or id retrieval) is returned to the caller as the raw
underlying driver error, unwrapped and unclassified --- errors.Is against
the ErrDatabase sentinel fails (CreateStudent, unlike GetStudent, never
wraps with the domain kind). -/
theorem create_error_unclassified (f : DriverFaults) (db : Db) (n e : String)
    (a : Int) (err : GoError)
    (h : (CreateStudent f db n e a).2 = .error err) :
    (∃ m, err = .raw m) ∧ errorsIs err .errDatabase = false := by
  obtain ⟨p, ex, li⟩ := f
  cases p with
  | some m =>
    simp only [CreateStudent] at h
    have hm : GoError.raw m = err := by
      injection h
    subst hm
    exact ⟨⟨m, rfl⟩, rfl⟩
  | none =>
    cases ex with
    | some m =>
      simp only [CreateStudent] at h
      have hm : GoError.raw m = err := by
        injection h
      subst hm
      exact ⟨⟨m, rfl⟩, rfl⟩
    | none =>
      cases li with
      | some m =>
        simp only [CreateStudent] at h
        have hm : GoError.raw m = err := by
          injection h
        subst hm
        exact ⟨⟨m, rfl⟩, rfl⟩
      | none =>
        simp only [CreateStudent] at h
        exact Except.noConfusion h

/-- Witness for C7 amended: an execute-stage fault yields the raw error and
the sentinel test fails. -/
theorem create_error_unclassified_witness :
    (∃ m, GoError.raw "exec failed" = .raw m) ∧
      errorsIs (.raw "exec failed") .errDatabase = false :=
  create_error_unclassified ⟨none, some "exec failed", none⟩ db0
    "A" "a@b.c" 20 (.raw "exec failed") rfl

/-- C1: on every well-formed storage state and every offset/limit pair, the
list operation succeeds with exactly the offset/limit window of the rows,
the returned rows are ordered by identifier strictly ascending, a window
past the table end is the empty sequence with no error, and no input ever
produces an error --- in particular never the NotFound sentinel. -/
theorem list_window_ordered (db : Db) (off lim : Int) (hwf : DbWf db) :
    GetStudentsList db off lim =
        .ok ((db.rows.drop off.toNat).take lim.toNat) ∧
      ((db.rows.drop off.toNat).take lim.toNat).Pairwise
        (fun a b => a.id < b.id) ∧
      ((db.rows.length : Int) ≤ off → GetStudentsList db off lim = .ok []) ∧
      ∀ e, GetStudentsList db off lim ≠ .error e := by
  refine ⟨rfl, ?_, ?_, ?_⟩
  · have hsub : ((db.rows.drop off.toNat).take lim.toNat).Sublist db.rows :=
      (List.take_sublist _ _).trans (List.drop_sublist _ _)
    exact hwf.2.sublist hsub
  · intro hoff
    have hlen : db.rows.length ≤ off.toNat := by omega
    unfold GetStudentsList
    rw [List.drop_eq_nil_of_le hlen, List.take_nil]
  · intro e h
    unfold GetStudentsList at h
    exact Except.noConfusion h

/-- Witness for C1: a two-row table, offset 5, limit 2 --- the window is
empty, returned with no error. -/
theorem list_window_ordered_witness :
    GetStudentsList ⟨[⟨1, "a", "a@b.c", 20⟩, ⟨2, "b", "b@c.d", 21⟩], 3⟩ 5 2 =
        .ok (((⟨[⟨1, "a", "a@b.c", 20⟩, ⟨2, "b", "b@c.d", 21⟩], 3⟩ : Db).rows.drop
          (5 : Int).toNat).take (2 : Int).toNat) ∧
      ((((⟨[⟨1, "a", "a@b.c", 20⟩, ⟨2, "b", "b@c.d", 21⟩], 3⟩ : Db).rows.drop
          (5 : Int).toNat).take (2 : Int).toNat).Pairwise
        (fun a b => a.id < b.id)) ∧
      (((((⟨[⟨1, "a", "a@b.c", 20⟩, ⟨2, "b", "b@c.d", 21⟩], 3⟩ : Db).rows.length : Int) ≤ 5) →
        GetStudentsList ⟨[⟨1, "a", "a@b.c", 20⟩, ⟨2, "b", "b@c.d", 21⟩], 3⟩ 5 2 = .ok [])) ∧
      ∀ e, GetStudentsList ⟨[⟨1, "a", "a@b.c", 20⟩, ⟨2, "b", "b@c.d", 21⟩], 3⟩ 5 2 ≠ .error e :=
  list_window_ordered ⟨[⟨1, "a", "a@b.c", 20⟩, ⟨2, "b", "b@c.d", 21⟩], 3⟩ 5 2
    (by decide)

/- Ceiling division on integers: for t ≥ 0 and l ≥ 1 the Go idiom
(t + l - 1) / l computes the ceiling of the rational t / l. -/
theorem ceil_div_int (t l : Int) (_ht : 0 ≤ t) (hl : 1 ≤ l) :
    (t + l - 1) / l = ⌈(t : ℚ) / (l : ℚ)⌉ := by
  have h0 : (0 : Int) < l := by omega
  have e1 := Int.ediv_add_emod (t + l - 1) l
  have e2 := Int.emod_nonneg (t + l - 1) (by omega : l ≠ 0)
  have e3 := Int.emod_lt_of_pos (t + l - 1) h0
  set n := (t + l - 1) / l with hn
  have hub : l * n ≤ t + l - 1 := by omega
  have hlb : t ≤ l * n := by omega
  have hlq : (0 : ℚ) < (l : ℚ) := by exact_mod_cast h0
  symm
  rw [Int.ceil_eq_iff]
  constructor
  · rw [lt_div_iff₀ hlq]
    have hi : (n - 1) * l < t := by nlinarith
    exact_mod_cast hi
  · rw [div_le_iff₀ hlq]
    have hi : t ≤ n * l := by nlinarith
    exact_mod_cast hi

/-- C2: every ListStudentsPaginated request succeeds with a 200
PaginatedResult whose total_items is the stored row count and whose
metadata satisfies total_pages = ceiling(total_items / limit),
has_next = (page < total_pages), and has_prev = (page > 1). -/
theorem list_handler_pagination_math (db : Db) (ps ls : String) :
    ∃ r, GetStudentsListHandler db ps ls = ⟨200, .paginated r⟩ ∧
      r.totalItems = (db.rows.length : Int) ∧
      r.page = (ParsePaginationParams ps ls).page ∧
      r.limit = (ParsePaginationParams ps ls).limit ∧
      (r.totalPages : ℚ) = ⌈(r.totalItems : ℚ) / (r.limit : ℚ)⌉ ∧
      r.hasNext = decide (r.page < r.totalPages) ∧
      r.hasPrev = decide (r.page > 1) := by
  refine ⟨_, rfl, rfl, rfl, rfl, ?_, rfl, rfl⟩
  dsimp only
  have hb := parseLimit_bounds ps ls
  have hc := ceil_div_int (db.rows.length : Int)
    (ParsePaginationParams ps ls).limit (Int.natCast_nonneg _) hb.1
  exact_mod_cast hc

/-- C8 counterexample: for the Create body {"name":"Bob","age":17} (decoded
with Email = "" and the untouched zero ID) the handler answers 400 with
message "Email is required; Age must be greater than 18" --- the validator
reports the capitalized Go struct field names, so the message does not
contain the claimed lowercase phrases "email is required" and
"age must be greater than 18". -/
theorem create_bob_message_cex :
    (NewStudentHandler noFaults db0 (.decoded ⟨0, "Bob", "", 17⟩)).2.1 =
      ⟨400, .err ⟨"validation errors", "Error",
        "Email is required; Age must be greater than 18"⟩⟩ ∧
    stringContains "Email is required; Age must be greater than 18"
      "email is required" = false ∧
    stringContains "Email is required; Age must be greater than 18"
      "age must be greater than 18" = false := by
  refine ⟨rfl, by decide, by decide⟩

/-- C8 amended: for every storage state and driver condition, the Create
request {"name":"Bob","age":17} (email missing, age below minimum) is
answered with HTTP 400 whose message contains both "Email is required" and
"Age must be greater than 18" (capitalized struct field names), joined by
"; ", and the Storage Gateway is invoked zero times. -/
theorem create_bob_validation (f : DriverFaults) (db : Db) :
    NewStudentHandler f db (.decoded ⟨0, "Bob", "", 17⟩) =
      (db, ⟨400, .err ⟨"validation errors", StatusError,
        "Email is required; Age must be greater than 18"⟩⟩, 0) ∧
    stringContains "Email is required; Age must be greater than 18"
      "Email is required" = true ∧
    stringContains "Email is required; Age must be greater than 18"
      "Age must be greater than 18" = true :=
  ⟨rfl, by decide, by decide⟩

/-- C9 (noninterference of the client-supplied id): two decoded Create
bodies that agree on name, email, and age --- differing at most in the id
field --- lead to identical handler behavior: the same storage call, the
same stored record, and the same response; moreover, whenever validation
passes, the 201 response body carries the storage-assigned identifier
db.nextId, never the client-supplied id. -/
theorem create_id_noninterference (f : DriverFaults) (db : Db)
    (s1 s2 : Student) (hn : s1.name = s2.name) (he : s1.email = s2.email)
    (ha : s1.age = s2.age) :
    NewStudentHandler f db (.decoded s1) = NewStudentHandler f db (.decoded s2) ∧
    ((validateStudent s1).isEmpty = true →
      (NewStudentHandler noFaults db (.decoded s1)).2.1 =
        ⟨201, .idJson db.nextId⟩) := by
  obtain ⟨i1, n1, e1, a1⟩ := s1
  obtain ⟨i2, n2, e2, a2⟩ := s2
  dsimp only at hn he ha
  subst hn he ha
  constructor
  · simp only [NewStudentHandler, validateStudent]
  · intro hv
    simp only [NewStudentHandler]
    simp only [hv, if_true]
    rfl

/-- Witness for C9: bodies with ids 7 and 0 but identical (name, email,
age); both handler runs coincide and the 201 body carries the assigned
id 1, not 7. -/
theorem create_id_noninterference_witness :
    (NewStudentHandler noFaults db0
        (.decoded ⟨7, "Alice", "alice@example.com", 22⟩) =
      NewStudentHandler noFaults db0
        (.decoded ⟨0, "Alice", "alice@example.com", 22⟩)) ∧
    (NewStudentHandler noFaults db0
        (.decoded ⟨7, "Alice", "alice@example.com", 22⟩)).2.1 =
      ⟨201, .idJson 1⟩ :=
  ⟨(create_id_noninterference noFaults db0
      ⟨7, "Alice", "alice@example.com", 22⟩
      ⟨0, "Alice", "alice@example.com", 22⟩ rfl rfl rfl).1,
   (create_id_noninterference noFaults db0
      ⟨7, "Alice", "alice@example.com", 22⟩
      ⟨0, "Alice", "alice@example.com", 22⟩ rfl rfl rfl).2 (by decide)⟩

/- With age = 0, the validator's output decomposes as the Name/Email
failures followed by exactly the Age `required` entry. -/
theorem validateStudent_age_zero_decomp (s : Student) (ha : s.age = 0) :
    ∃ pre, validateStudent s = pre ++ [⟨"Age", "required", ""⟩] ∧
      ∀ x ∈ pre, x.field = "Name" ∨ x.field = "Email" := by
  refine ⟨(if s.name = "" then [⟨"Name", "required", ""⟩] else []) ++
      (if s.email = "" then [⟨"Email", "required", ""⟩]
       else if !emailValid s.email then [⟨"Email", "email", ""⟩] else []),
    ?_, ?_⟩
  · simp only [validateStudent, ha, if_true, List.append_assoc]
  · intro x hx
    rcases List.mem_append.1 hx with h | h
    · left
      split_ifs at h
      · rw [List.mem_singleton.1 h]
      · exact absurd h (List.not_mem_nil x)
    · right
      split_ifs at h
      · rw [List.mem_singleton.1 h]
      · rw [List.mem_singleton.1 h]
      · exact absurd h (List.not_mem_nil x)

/-- C10: a Create request whose decoded age is 0 (the integer zero value,
i.e. the age field absent or explicitly 0) fails validation with the
required-field violation for Age --- the phrase "Age is required" is one of
the "; "-joined message components --- and NOT with the below-minimum
violation; the handler answers 400 and the Storage Gateway is invoked zero
times. -/
theorem age_zero_required_violation (f : DriverFaults) (db : Db) (s : Student)
    (ha : s.age = 0) :
    (⟨"Age", "required", ""⟩ : FieldError) ∈ validateStudent s ∧
    (⟨"Age", "min", "18"⟩ : FieldError) ∉ validateStudent s ∧
    "Age is required" ∈ (validateStudent s).map fieldErrorMsg ∧
    ∃ resp, NewStudentHandler f db (.decoded s) = (db, ⟨400, .err resp⟩, 0) ∧
      resp.message =
        stringsJoin ((validateStudent s).map fieldErrorMsg) "; " := by
  obtain ⟨pre, hdec, hpre⟩ := validateStudent_age_zero_decomp s ha
  have hmem : (⟨"Age", "required", ""⟩ : FieldError) ∈ validateStudent s := by
    rw [hdec]
    exact List.mem_append.2 (Or.inr (List.mem_singleton.2 rfl))
  have hnomin : (⟨"Age", "min", "18"⟩ : FieldError) ∉ validateStudent s := by
    rw [hdec]
    intro hmin
    rcases List.mem_append.1 hmin with h | h
    · rcases hpre _ h with hf | hf <;> simp at hf
    · simp at h
  have hne : ¬ (validateStudent s).isEmpty = true := by
    rw [hdec]
    simp
  refine ⟨hmem, hnomin, ?_, ?_⟩
  · rw [hdec, List.map_append]
    exact List.mem_append.2 (Or.inr (by simp [fieldErrorMsg]))
  · refine ⟨writeValidationErrors (validateStudent s), ?_, rfl⟩
    simp only [NewStudentHandler]
    simp only [hne, if_false]
    rfl

/-- Witness for C10: the body {"name":"Bob","email":"bob@example.com"}
(age absent, decoded as 0) produces the Age `required` violation, no `min`
violation, the message component "Age is required", and a 400 with no
storage call. -/
theorem age_zero_required_violation_witness :
    (⟨"Age", "required", ""⟩ : FieldError) ∈
        validateStudent ⟨0, "Bob", "bob@example.com", 0⟩ ∧
    (⟨"Age", "min", "18"⟩ : FieldError) ∉
        validateStudent ⟨0, "Bob", "bob@example.com", 0⟩ ∧
    "Age is required" ∈
        (validateStudent ⟨0, "Bob", "bob@example.com", 0⟩).map fieldErrorMsg ∧
    ∃ resp, NewStudentHandler noFaults db0
          (.decoded ⟨0, "Bob", "bob@example.com", 0⟩) =
        (db0, ⟨400, .err resp⟩, 0) ∧
      resp.message = stringsJoin
        ((validateStudent ⟨0, "Bob", "bob@example.com", 0⟩).map fieldErrorMsg)
        "; " :=
  age_zero_required_violation noFaults db0 ⟨0, "Bob", "bob@example.com", 0⟩ rfl

end StudentsApi
